import Mathlib

/-!
Shallow embedding of the VerdantView file-health analysis engine.

The embedding follows `src/fileAnalyzer.ts` (metric extraction and health
classification) and the `GardenProvider` view-model layer (filtering,
grouping, report generation, debounced refresh).  Machine numbers are
modelled as `Nat`/`Int` (JavaScript numbers stay far below 2^53 here, so no
overflow wrapping is involved); timestamps are integer milliseconds.
External host services (the regex engine producing per-pattern match
counts, the `path` library's extension/basename extraction, and the
locale-dependent string comparator passed to `Array.prototype.sort`) enter
as explicit inputs, exactly at the interface boundary the code uses them.
-/

namespace VerdantView

/-- The three health tiers of `FileMetrics.health`. -/
inductive Health where
  | healthy
  | warning
  | critical
deriving DecidableEq

/-- One `{warning, critical}` threshold dimension of `HealthThresholds`. -/
structure ThresholdPair where
  warning : Nat
  critical : Nat
deriving DecidableEq

/-- `HealthThresholds` from `fileAnalyzer.ts`. -/
structure HealthThresholds where
  complexity : ThresholdPair
  size : ThresholdPair
  age : ThresholdPair
deriving DecidableEq

/-- The default thresholds of `FileAnalyzer.getHealthThresholds`. -/
def defaultThresholds : HealthThresholds :=
  { complexity := { warning := 10, critical := 20 }
  , size := { warning := 500, critical := 1000 }
  , age := { warning := 30, critical := 90 } }

/-- Result record of `FileAnalyzer.assessHealth`. -/
structure HealthAssessment where
  health : Health
  issues : List String
deriving DecidableEq

/-- Milliseconds per day, the divisor `1000 * 60 * 60 * 24` in `assessHealth`. -/
def msPerDay : Int := 1000 * 60 * 60 * 24

/-- `Math.floor((now.getTime() - lastModified.getTime()) / msPerDay)`:
floor division of the millisecond difference (JS `Math.floor` rounds toward
negative infinity, so `Int.fdiv`). -/
def daysSince (now lastModified : Int) : Int :=
  (now - lastModified).fdiv msPerDay

/-- The complexity block of `assessHealth`: score contribution and issue
pushed for the complexity dimension (`complexity >= critical` checked first). -/
def complexityCheck (complexity : Nat) (t : HealthThresholds) : Nat × List String :=
  if t.complexity.critical ≤ complexity then
    (2, [s!"High complexity ({complexity})"])
  else if t.complexity.warning ≤ complexity then
    (1, [s!"Moderate complexity ({complexity})"])
  else
    (0, [])

/-- The size block of `assessHealth`, on `sizeKB = Math.floor(size / 1024)`. -/
def sizeCheck (sizeKB : Nat) (t : HealthThresholds) : Nat × List String :=
  if t.size.critical ≤ sizeKB then
    (2, [s!"Large file ({sizeKB}KB)"])
  else if t.size.warning ≤ sizeKB then
    (1, [s!"Medium file ({sizeKB}KB)"])
  else
    (0, [])

/-- The age block of `assessHealth`: past the critical age adds 1 to the
score; between warning and critical only an informational issue is pushed. -/
def ageCheck (daysSinceModified : Int) (t : HealthThresholds) : Nat × List String :=
  if (t.age.critical : Int) ≤ daysSinceModified then
    (1, [s!"Not modified for {daysSinceModified} days"])
  else if (t.age.warning : Int) ≤ daysSinceModified then
    (0, [s!"Last modified {daysSinceModified} days ago"])
  else
    (0, [])

/-- `FileAnalyzer.assessHealth`: sequentially accumulates a score and an
issue list over the three dimensions, then maps the score to a tier
(`>= 3` critical, `>= 1` warning, else healthy).  `now` is the call-time
clock value (`new Date()` inside the function), passed explicitly. -/
def assessHealth (lines size complexity : Nat) (lastModified now : Int)
    (t : HealthThresholds) : HealthAssessment :=
  let c := complexityCheck complexity t
  let s := sizeCheck (size / 1024) t
  let a := ageCheck (daysSince now lastModified) t
  let healthScore := c.1 + s.1 + a.1
  { health :=
      if 3 ≤ healthScore then Health.critical
      else if 1 ≤ healthScore then Health.warning
      else Health.healthy
  , issues := c.2 ++ s.2 ++ a.2 }

/-- Spec-side score, written from the claim's words: +2/+1 for complexity
against critical/warning, +2/+1 for size-KB, +1 for age past critical, and
nothing for an age between warning and critical.  Used only to compare the
source's `assessHealth` against the specified scoring. -/
def specHealthScore (complexity sizeKB : Nat) (ageDays : Int) (t : HealthThresholds) : Nat :=
  (if t.complexity.critical ≤ complexity then 2
   else if t.complexity.warning ≤ complexity then 1 else 0)
  + (if t.size.critical ≤ sizeKB then 2
     else if t.size.warning ≤ sizeKB then 1 else 0)
  + (if (t.age.critical : Int) ≤ ageDays then 1 else 0)

theorem score_components_eq (complexity sizeKB : Nat) (ageDays : Int) (t : HealthThresholds) :
    (complexityCheck complexity t).1 + (sizeCheck sizeKB t).1 + (ageCheck ageDays t).1
      = specHealthScore complexity sizeKB ageDays t := by
  unfold complexityCheck sizeCheck ageCheck specHealthScore
  split_ifs <;> rfl

/-- C1: the health classifier computes the additive score described by the
spec (+2/+1 per complexity and size tier, +1 for critical age, nothing for
an age warning) and returns `critical` exactly when the score is ≥ 3,
`warning` exactly when it is 1 or 2, and `healthy` exactly when it is 0. -/
theorem assessHealth_additive_score (lines size complexity : Nat)
    (lastModified now : Int) (t : HealthThresholds) :
    ((assessHealth lines size complexity lastModified now t).health = Health.critical
        ↔ 3 ≤ specHealthScore complexity (size / 1024) (daysSince now lastModified) t)
    ∧ ((assessHealth lines size complexity lastModified now t).health = Health.warning
        ↔ 1 ≤ specHealthScore complexity (size / 1024) (daysSince now lastModified) t
          ∧ specHealthScore complexity (size / 1024) (daysSince now lastModified) t ≤ 2)
    ∧ ((assessHealth lines size complexity lastModified now t).health = Health.healthy
        ↔ specHealthScore complexity (size / 1024) (daysSince now lastModified) t = 0) := by
  have h := score_components_eq complexity (size / 1024) (daysSince now lastModified) t
  simp only [assessHealth, h]
  split_ifs with h3 h1 <;>
    refine ⟨⟨fun _ => ?_, fun _ => ?_⟩, ⟨fun _ => ?_, fun _ => ?_⟩, ⟨fun _ => ?_, fun _ => ?_⟩⟩ <;>
    first
      | omega
      | rfl
      | (exact absurd (by assumption) (by simp))

/-- Numeric rank of a health tier, used to state that a verdict never
improves: healthy 0, warning 1, critical 2. -/
def healthRank : Health → Nat
  | Health.healthy => 0
  | Health.warning => 1
  | Health.critical => 2

/-- The score actually accumulated by `assessHealth` (its `healthScore`
local), exposed for the monotonicity statement. -/
def assessScore (size complexity : Nat) (lastModified now : Int)
    (t : HealthThresholds) : Nat :=
  (complexityCheck complexity t).1 + (sizeCheck (size / 1024) t).1
    + (ageCheck (daysSince now lastModified) t).1

theorem assessHealth_health_eq (lines size complexity : Nat)
    (lastModified now : Int) (t : HealthThresholds) :
    (assessHealth lines size complexity lastModified now t).health =
      (if 3 ≤ assessScore size complexity lastModified now t then Health.critical
       else if 1 ≤ assessScore size complexity lastModified now t then Health.warning
       else Health.healthy) := rfl

/-- C6: the health score is monotone in complexity — for `c1 ≤ c2` with
size, timestamps and thresholds fixed, the score for `c1` is at most the
score for `c2`, and hence the verdict's rank never decreases. -/
theorem assessHealth_monotone_complexity (lines size c1 c2 : Nat)
    (lastModified now : Int) (t : HealthThresholds) (h : c1 ≤ c2) :
    assessScore size c1 lastModified now t ≤ assessScore size c2 lastModified now t
    ∧ healthRank (assessHealth lines size c1 lastModified now t).health
        ≤ healthRank (assessHealth lines size c2 lastModified now t).health := by
  have hmono : (complexityCheck c1 t).1 ≤ (complexityCheck c2 t).1 := by
    unfold complexityCheck
    split_ifs <;> simp_all <;> omega
  have hscore : assessScore size c1 lastModified now t
      ≤ assessScore size c2 lastModified now t := by
    unfold assessScore
    omega
  refine ⟨hscore, ?_⟩
  rw [assessHealth_health_eq, assessHealth_health_eq]
  split_ifs <;> simp [healthRank] <;> omega

/-- C6 witness: the theorem applied at complexity 0 ≤ 25 with default
thresholds and everything else zero. -/
theorem assessHealth_monotone_complexity_witness :
    assessScore 0 0 0 0 defaultThresholds ≤ assessScore 0 25 0 0 defaultThresholds
    ∧ healthRank (assessHealth 0 0 0 0 0 defaultThresholds).health
        ≤ healthRank (assessHealth 0 0 25 0 0 defaultThresholds).health :=
  assessHealth_monotone_complexity 0 0 0 25 0 0 defaultThresholds (by decide)

/-- C5 counterexample: the claim quantifies over all thresholds, but the
classifier checks `>= critical` before `>= warning`; with an inverted pair
(critical below warning) a complexity and size both strictly below their
warning thresholds still score 2 + 2 and the verdict is `critical`. -/
theorem staleness_only_claim_counterexample :
    ¬ (∀ (lastModified now : Int) (t : HealthThresholds) (complexity size : Nat),
        complexity < t.complexity.warning → size / 1024 < t.size.warning →
        (assessHealth 0 size complexity lastModified now t).health ≠ Health.critical) := by
  intro h
  exact h 0 0
    { complexity := { warning := 10, critical := 5 }
    , size := { warning := 10, critical := 5 }
    , age := { warning := 30, critical := 90 } }
    7 7168 (by decide) (by decide) (by decide)

/-- C5 (amended): for thresholds with the expected ordering
`warning ≤ critical` in the complexity and size dimensions, a complexity
below the complexity warning threshold and a size (in KB) below the size
warning threshold never yield a `critical` verdict — staleness alone
contributes at most 1 and stops at `warning`. -/
theorem staleness_alone_never_critical (lines size complexity : Nat)
    (lastModified now : Int) (t : HealthThresholds)
    (hcw : t.complexity.warning ≤ t.complexity.critical)
    (hsw : t.size.warning ≤ t.size.critical)
    (hc : complexity < t.complexity.warning)
    (hs : size / 1024 < t.size.warning) :
    (assessHealth lines size complexity lastModified now t).health ≠ Health.critical := by
  have hcc : (complexityCheck complexity t).1 = 0 := by
    unfold complexityCheck
    split_ifs with h1 h2
    · exact absurd h1 (by omega)
    · exact absurd h2 (by omega)
    · rfl
  have hsc : (sizeCheck (size / 1024) t).1 = 0 := by
    unfold sizeCheck
    split_ifs with h1 h2
    · exact absurd h1 (by omega)
    · exact absurd h2 (by omega)
    · rfl
  have hac : (ageCheck (daysSince now lastModified) t).1 ≤ 1 := by
    unfold ageCheck
    split_ifs <;> simp
  have hbound : assessScore size complexity lastModified now t ≤ 1 := by
    unfold assessScore
    omega
  rw [assessHealth_health_eq]
  split_ifs with h3 h1
  · exact absurd h3 (by omega)
  · decide
  · decide

/-- C5 witness: default thresholds, a tiny fresh-looking file that is 400
days stale — the verdict is not critical. -/
theorem staleness_alone_never_critical_witness :
    (assessHealth 0 0 1 0 34560000000 defaultThresholds).health ≠ Health.critical :=
  staleness_alone_never_critical 0 0 1 0 34560000000 defaultThresholds
    (by decide) (by decide) (by decide) (by decide)

/-- C10: whenever `assessHealth` returns `critical` the issues list has at
least two entries (no single dimension scores more than 2, so a score of 3
needs two breached dimensions, each pushing one issue), and the issues list
never has more than three entries (at most one per dimension). -/
theorem critical_verdict_issue_bounds (lines size complexity : Nat)
    (lastModified now : Int) (t : HealthThresholds) :
    ((assessHealth lines size complexity lastModified now t).health = Health.critical →
        2 ≤ (assessHealth lines size complexity lastModified now t).issues.length)
    ∧ (assessHealth lines size complexity lastModified now t).issues.length ≤ 3 := by
  unfold assessHealth complexityCheck sizeCheck ageCheck
  split_ifs <;> simp_all

/-- C10 witness: a file breaching the complexity and size critical
thresholds — its verdict is critical, and the theorem bounds its issue
count between 2 and 3. -/
theorem critical_verdict_issue_bounds_witness :
    2 ≤ (assessHealth 0 2048000 25 0 0 defaultThresholds).issues.length
    ∧ (assessHealth 0 2048000 25 0 0 defaultThresholds).issues.length ≤ 3 :=
  ⟨(critical_verdict_issue_bounds 0 2048000 25 0 0 defaultThresholds).1 (by decide),
   (critical_verdict_issue_bounds 0 2048000 25 0 0 defaultThresholds).2⟩

/-- The static `FILE_TYPE_ICONS` table of `FileAnalyzer`, keyed by
lowercased extension or lowercased basename. -/
def fileTypeIcons : List (String × String) :=
  [ (".ts", "typescript"), (".js", "javascript"), (".tsx", "react"), (".jsx", "react")
  , (".py", "python"), (".java", "java"), (".cpp", "cpp"), (".c", "c")
  , (".cs", "csharp"), (".php", "php"), (".rb", "ruby"), (".go", "go")
  , (".rs", "rust"), (".swift", "swift"), (".kt", "kotlin"), (".scala", "scala")
  , (".dart", "dart")
  , (".html", "html"), (".css", "css"), (".scss", "sass"), (".sass", "sass")
  , (".less", "less"), (".vue", "vue"), (".svelte", "svelte")
  , (".json", "json"), (".xml", "xml"), (".yaml", "yaml"), (".yml", "yaml")
  , (".toml", "toml"), (".csv", "csv")
  , (".md", "markdown"), (".txt", "text"), (".rst", "text"), (".tex", "latex")
  , (".env", "settings"), (".ini", "settings"), (".conf", "settings"), (".config", "settings")
  , (".dockerfile", "docker"), ("dockerfile", "docker"), (".jenkinsfile", "jenkins")
  , ("makefile", "make"), ("package.json", "npm"), ("cargo.toml", "rust")
  , ("pom.xml", "java"), ("build.gradle", "gradle")
  , (".png", "image"), (".jpg", "image"), (".jpeg", "image"), (".gif", "image")
  , (".svg", "image"), (".ico", "image")
  , (".sql", "database"), (".db", "database"), (".sqlite", "database")
  , (".log", "log"), (".lock", "lock") ]

/-- `FileAnalyzer.getFileType`: extension lookup, then basename lookup,
defaulting to `"file"` (the table holds no empty strings, so the JS `||`
chain is the `Option.getD` chain). -/
def getFileType (ext basename : String) : String :=
  ((fileTypeIcons.lookup ext).or (fileTypeIcons.lookup basename)).getD "file"

/-- One file as `analyzeFile` sees it after the host's stat/read/path/regex
services ran: the decoded text, the stat size and mtime, the lowercased
extension and basename from `path`, and the host regex engine's match
counts for the fixed complexity patterns (`\bif\b`, `\belse\b`, …, the
bracket/arrow class) and the language-specific token patterns. -/
structure RawFile where
  content : String
  statSize : Nat
  mtime : Int
  ext : String
  basename : String
  patternMatchCounts : List Nat
  asyncCount : Nat
  awaitCount : Nat
  promiseCount : Nat
  defCount : Nat
  pyClassCount : Nat
  exceptCount : Nat
deriving DecidableEq

/-- `FileAnalyzer.calculateComplexity`: sum of the fixed pattern match
counts, plus the JS/TS token counts for ECMAScript extensions or the
Python token counts for `.py`, then `max(1, floor(total / 10))`. -/
def calculateComplexity (f : RawFile) : Nat :=
  let base := f.patternMatchCounts.foldl (fun a b => a + b) 0
  let total :=
    if f.ext = ".ts" ∨ f.ext = ".js" ∨ f.ext = ".tsx" ∨ f.ext = ".jsx" then
      base + f.asyncCount + f.awaitCount + f.promiseCount
    else if f.ext = ".py" then
      base + f.defCount + f.pyClassCount + f.exceptCount
    else base
  max 1 (total / 10)

/-- The `FileMetrics` record of `fileAnalyzer.ts`. -/
structure FileMetrics where
  lines : Nat
  size : Nat
  complexity : Nat
  lastModified : Int
  type : String
  health : Health
  issues : List String
deriving DecidableEq

/-- `FileAnalyzer.analyzeFile`: on a successful stat/read it extracts the
metrics and classifies them; when the host fails (modelled as
`Except.error` carrying the error message) the `catch` block returns the
sentinel record with zeroed numerics, `type = "unknown"`,
`health = critical` and a single failure issue, stamped with the current
time.  `lines` is `text.split('\n').length`. -/
def analyzeFile (input : Except String RawFile) (now : Int)
    (t : HealthThresholds) : FileMetrics :=
  match input with
  | Except.ok f =>
    let lines := (f.content.splitOn "\n").length
    let size := f.statSize
    let lastModified := f.mtime
    let complexity := calculateComplexity f
    let type := getFileType f.ext f.basename
    let a := assessHealth lines size complexity lastModified now t
    { lines := lines, size := size, complexity := complexity
    , lastModified := lastModified, type := type
    , health := a.health, issues := a.issues }
  | Except.error e =>
    { lines := 0, size := 0, complexity := 0, lastModified := now
    , type := "unknown", health := Health.critical
    , issues := [s!"Failed to analyze: {e}"] }

/-- A batch scan: every enumerated file (readable or not) is analyzed
independently, as in `GardenProvider.getRootItems`. -/
def scanFiles (batch : List (Except String RawFile)) (now : Int)
    (t : HealthThresholds) : List FileMetrics :=
  batch.map (fun b => analyzeFile b now t)

/-- C3 counterexample: the sentinel record produced when a file cannot be
read has `complexity = 0`, not ≥ 1 — the claim's "including the sentinel
record" part fails. -/
theorem sentinel_complexity_counterexample :
    ¬ 1 ≤ (analyzeFile (Except.error "EACCES: permission denied") 0 defaultThresholds).complexity := by
  decide

/-- C3 (amended): every successfully analyzed file's metrics record has
`complexity ≥ 1` (`calculateComplexity` clamps with `max(1, ·)`); only the
failure sentinel carries `complexity = 0`. -/
theorem analyzed_complexity_ge_one (f : RawFile) (now : Int) (t : HealthThresholds) :
    1 ≤ (analyzeFile (Except.ok f) now t).complexity := by
  simp only [analyzeFile, calculateComplexity]
  exact Nat.le_max_left 1 _

/-- C4: a failed read/stat does not abort analysis — `analyzeFile` returns
the sentinel record (zeroed numerics, `type = "unknown"`,
`health = critical`) with exactly one issue string describing the failure,
and in any batch every readable file's metrics still appear, computed
exactly as if it were analyzed alone. -/
theorem analyzeFile_failure_sentinel (e : String) (now : Int) (t : HealthThresholds) :
    analyzeFile (Except.error e) now t =
      { lines := 0, size := 0, complexity := 0, lastModified := now
      , type := "unknown", health := Health.critical
      , issues := [s!"Failed to analyze: {e}"] }
    ∧ (analyzeFile (Except.error e) now t).issues.length = 1
    ∧ ∀ (batch : List (Except String RawFile)) (f : RawFile),
        Except.ok f ∈ batch →
        analyzeFile (Except.ok f) now t ∈ scanFiles batch now t := by
  refine ⟨rfl, rfl, ?_⟩
  intro batch f hf
  exact List.mem_map.mpr ⟨Except.ok f, hf, rfl⟩

/-- A concrete readable TypeScript file used by witnesses. -/
def sampleRawFile : RawFile :=
  { content := "const x = 1\n", statSize := 12, mtime := 0
  , ext := ".ts", basename := "sample.ts"
  , patternMatchCounts := [0, 0, 0, 0, 0, 0, 0, 0, 0, 0, 0, 2]
  , asyncCount := 0, awaitCount := 0, promiseCount := 0
  , defCount := 0, pyClassCount := 0, exceptCount := 0 }

/-- C4 witness: a batch holding one unreadable and one readable file — the
sentinel has exactly one issue and the readable file's metrics are in the
scan output. -/
theorem analyzeFile_failure_sentinel_witness :
    (analyzeFile (Except.error "boom") 0 defaultThresholds).issues.length = 1
    ∧ analyzeFile (Except.ok sampleRawFile) 0 defaultThresholds ∈
        scanFiles [Except.error "boom", Except.ok sampleRawFile] 0 defaultThresholds :=
  ⟨(analyzeFile_failure_sentinel "boom" 0 defaultThresholds).2.1,
   (analyzeFile_failure_sentinel "boom" 0 defaultThresholds).2.2
     [Except.error "boom", Except.ok sampleRawFile] sampleRawFile (by simp)⟩

/-- `GroupBy` from `gardenProvider`. -/
inductive GroupBy where
  | none
  | type
  | health
  | folder
deriving DecidableEq

/-- `HealthFilter` from `gardenProvider`. -/
inductive HealthFilter where
  | all
  | healthy
  | warning
  | critical
deriving DecidableEq

/-- The string form of a health tier (`'healthy' | 'warning' | 'critical'`),
the value used as a grouping key. -/
def healthKeyString : Health → String
  | Health.healthy => "healthy"
  | Health.warning => "warning"
  | Health.critical => "critical"

/-- The filter step of `getRootItems`:
`currentHealthFilter !== 'all' && metrics.health !== currentHealthFilter`
drops the file. -/
def passesFilter : HealthFilter → Health → Bool
  | HealthFilter.all, _ => true
  | HealthFilter.healthy, Health.healthy => true
  | HealthFilter.warning, Health.warning => true
  | HealthFilter.critical, Health.critical => true
  | _, _ => false

/-- A `PlantItem`'s payload: the file's path and its analyzed metrics. -/
structure PlantData where
  fsPath : String
  metrics : FileMetrics
deriving DecidableEq

/-- `path.basename`: the last `/`-separated component. -/
def basename (s : String) : String :=
  (s.splitOn "/").getLastD s

/-- `path.dirname`: everything before the last `/`, or `"."` when the path
has no separator. -/
def dirname (s : String) : String :=
  let parts := s.splitOn "/"
  if parts.length ≤ 1 then "." else String.intercalate "/" parts.dropLast

/-- A `PlantItem`'s tree label: `path.basename(uri.fsPath)`. -/
def plantLabel (p : PlantData) : String :=
  basename p.fsPath

/-- The garden tree's node type: a leaf `PlantItem` or a `GroupItem` with a
label (already carrying its ` (count)` suffix), its sorted children, and an
icon tag. -/
inductive GardenItem where
  | plant (p : PlantData)
  | group (label : String) (children : List PlantData) (icon : String)
deriving DecidableEq

/-- A tree item's display label, the sort key of both sort calls. -/
def itemLabel : GardenItem → String
  | GardenItem.plant p => plantLabel p
  | GardenItem.group l _ _ => l

/-- Insertion step of a comparator-driven insertion sort.  The source sorts
with `Array.prototype.sort` and a host comparator; any comparison sort is
a faithful model up to the ordering induced by the comparator, which is
passed in as `le`. -/
def insertSorted (le : α → α → Bool) (a : α) : List α → List α
  | [] => [a]
  | b :: l => if le a b then a :: b :: l else b :: insertSorted le a l

/-- Comparator-driven sort modelling `Array.prototype.sort(cmp)`. -/
def sortBy (le : α → α → Bool) : List α → List α
  | [] => []
  | a :: l => insertSorted le a (sortBy le l)

theorem insertSorted_perm (le : α → α → Bool) (a : α) (l : List α) :
    (insertSorted le a l).Perm (a :: l) := by
  induction l with
  | nil => exact List.Perm.refl _
  | cons b l ih =>
    simp only [insertSorted]
    split_ifs
    · exact List.Perm.refl _
    · exact (ih.cons b).trans (List.Perm.swap a b l)

theorem sortBy_perm (le : α → α → Bool) (l : List α) :
    (sortBy le l).Perm l := by
  induction l with
  | nil => exact List.Perm.refl _
  | cons a l ih =>
    exact (insertSorted_perm le a (sortBy le l)).trans (ih.cons a)

/-- The grouping key of `groupItems` per mode (`none` never reaches the
insertion, see `addToGroups`). -/
def groupKey (gb : GroupBy) (p : PlantData) : String :=
  match gb with
  | GroupBy.type => p.metrics.type
  | GroupBy.health => healthKeyString p.metrics.health
  | GroupBy.folder => dirname p.fsPath
  | GroupBy.none => ""

/-- Insertion into the insertion-ordered `Map<string, PlantItem[]>`:
append to an existing bucket, else append a fresh bucket at the end. -/
def insertGroup (key : String) (p : PlantData) :
    List (String × List PlantData) → List (String × List PlantData)
  | [] => [(key, [p])]
  | (k, ps) :: rest =>
    if k = key then (k, ps ++ [p]) :: rest else (k, ps) :: insertGroup key p rest

/-- One step of the `items.forEach` in `groupItems`: the `default` case of
the switch (`GroupBy = none`) returns without inserting the item. -/
def addToGroups (gb : GroupBy) (gs : List (String × List PlantData)) (p : PlantData) :
    List (String × List PlantData) :=
  match gb with
  | GroupBy.none => gs
  | _ => insertGroup (groupKey gb p) p gs

/-- The grouping map built by the `forEach` loop of `groupItems`. -/
def buildGroups (gb : GroupBy) (items : List PlantData) :
    List (String × List PlantData) :=
  items.foldl (addToGroups gb) []

/-- `getTypeDisplayName`: table lookup with a `Capitalized Files` fallback. -/
def getTypeDisplayName (type : String) : String :=
  let typeNames : List (String × String) :=
    [ ("typescript", "TypeScript Files"), ("javascript", "JavaScript Files")
    , ("python", "Python Files"), ("java", "Java Files"), ("cpp", "C++ Files")
    , ("css", "CSS Files"), ("html", "HTML Files"), ("json", "JSON Files")
    , ("markdown", "Markdown Files"), ("image", "Image Files")
    , ("database", "Database Files") ]
  match typeNames.lookup type with
  | some n => n
  | Option.none =>
    match type.data with
    | [] => s!"{type} Files"
    | c :: rest => s!"{String.mk (c.toUpper :: rest)} Files"

/-- `getHealthDisplayName` (the source prefixes each name with a status
emoji; the emoji code points are kept out of this embedding, and no theorem
depends on these labels). -/
def getHealthDisplayName (health : String) : String :=
  let healthNames : List (String × String) :=
    [ ("healthy", "Healthy Files"), ("warning", "Files Needing Attention")
    , ("critical", "Critical Files") ]
  (healthNames.lookup health).getD health

/-- `FileAnalyzer.getIconForFileType`. -/
def getIconForFileType (type : String) (health : Health) : String :=
  let hk := healthKeyString health
  let healthSuffix := if health = Health.healthy then "" else s!"-{hk}"
  if type = "folder" then "folder"
  else if type = "typescript" ∨ type = "javascript" ∨ type = "react" then
    s!"leaf{healthSuffix}"
  else if type = "python" ∨ type = "java" ∨ type = "cpp" then
    s!"flower-{hk}"
  else s!"leaf{healthSuffix}"

/-- `GardenProvider.getHealthIcon`. -/
def getHealthIcon (key : String) : String :=
  if key = "healthy" then "leaf"
  else if key = "warning" then "leaf-warning"
  else if key = "critical" then "leaf-critical"
  else "leaf"

/-- `GardenProvider.getGroupLabel`: display name per mode, the raw key
(the folder path) otherwise. -/
def getGroupLabel (gb : GroupBy) (key : String) : String :=
  match gb with
  | GroupBy.type => getTypeDisplayName key
  | GroupBy.health => getHealthDisplayName key
  | _ => key

/-- `GardenProvider.getGroupIcon`. -/
def getGroupIcon (gb : GroupBy) (key : String) : String :=
  match gb with
  | GroupBy.type => getIconForFileType key Health.healthy
  | GroupBy.health => getHealthIcon key
  | GroupBy.folder => "folder"
  | GroupBy.none => "file"

/-- The `GroupItem` built for one bucket: label from `getGroupLabel` with
the ` (count)` suffix of the `GroupItem` constructor, children label-sorted,
icon from `getGroupIcon`. -/
def mkGroupItem (gb : GroupBy) (le : String → String → Bool)
    (g : String × List PlantData) : GardenItem :=
  let lbl := getGroupLabel gb g.1
  let n := g.2.length
  GardenItem.group s!"{lbl} ({n})"
    (sortBy (fun a b => le (plantLabel a) (plantLabel b)) g.2)
    (getGroupIcon gb g.1)

/-- `GardenProvider.groupItems`: build the insertion-ordered buckets, wrap
each as a `GroupItem`, then sort the groups by label.  `le` is the host
string comparator (`localeCompare`-based). -/
def groupItems (gb : GroupBy) (le : String → String → Bool)
    (items : List PlantData) : List GardenItem :=
  sortBy (fun a b => le (itemLabel a) (itemLabel b))
    ((buildGroups gb items).map (mkGroupItem gb le))

/-- `GardenProvider.getRootItems`, after the per-file analysis stage: the
enumerated files already carry their (cache-identical, deterministic)
metrics; the active health filter drops non-matching files, then the result
is either the label-sorted flat list or the grouped view. -/
def getRootItems (files : List PlantData) (hf : HealthFilter) (gb : GroupBy)
    (le : String → String → Bool) : List GardenItem :=
  let plantItems := files.filter (fun p => passesFilter hf p.metrics.health)
  if gb = GroupBy.none then
    (sortBy (fun a b => le (plantLabel a) (plantLabel b)) plantItems).map GardenItem.plant
  else
    groupItems gb le plantItems

/-- The `instanceof PlantItem` projection used by `generateReport` and
`getGardenSummary`: only leaf items survive. -/
def plantsOf (items : List GardenItem) : List PlantData :=
  items.filterMap (fun it =>
    match it with
    | GardenItem.plant p => some p
    | GardenItem.group _ _ _ => Option.none)

/-- The numeric aggregates of `generateReport` / `getGardenSummary`
(`avgComplexity` is `complexitySum / total` in floating point; the sum is
the modelled numerator). -/
structure ReportSummary where
  total : Nat
  healthy : Nat
  warning : Nat
  critical : Nat
  totalSize : Nat
  totalLines : Nat
  complexitySum : Nat
deriving DecidableEq

/-- The reduction of `generateReport` over its `PlantItem`s. -/
def reportSummary (items : List GardenItem) : ReportSummary :=
  let ps := plantsOf items
  { total := ps.length
  , healthy := (ps.filter (fun p => p.metrics.health == Health.healthy)).length
  , warning := (ps.filter (fun p => p.metrics.health == Health.warning)).length
  , critical := (ps.filter (fun p => p.metrics.health == Health.critical)).length
  , totalSize := (ps.map (fun p => p.metrics.size)).foldl (fun a b => a + b) 0
  , totalLines := (ps.map (fun p => p.metrics.lines)).foldl (fun a b => a + b) 0
  , complexitySum := (ps.map (fun p => p.metrics.complexity)).foldl (fun a b => a + b) 0 }

/-- `GardenProvider.exportReport`'s data path: it reports over
`await this.getRootItems()` — the current, filtered and grouped view. -/
def exportReportSummary (files : List PlantData) (hf : HealthFilter)
    (gb : GroupBy) (le : String → String → Bool) : ReportSummary :=
  reportSummary (getRootItems files hf gb le)

/-- The children a tree node exposes: none for a leaf, the bucket's
plants for a group. -/
def itemChildren : GardenItem → List PlantData
  | GardenItem.plant _ => []
  | GardenItem.group _ cs _ => cs

theorem itemChildren_mkGroupItem (gb : GroupBy) (le : String → String → Bool)
    (g : String × List PlantData) :
    itemChildren (mkGroupItem gb le g)
      = sortBy (fun a b => le (plantLabel a) (plantLabel b)) g.2 := rfl

theorem plantsOf_map_plant (l : List PlantData) :
    plantsOf (l.map GardenItem.plant) = l := by
  induction l with
  | nil => rfl
  | cons a l ih =>
    simp only [List.map_cons, plantsOf, List.filterMap_cons] at ih ⊢
    rw [ih]

theorem plantsOf_groupItems (gb : GroupBy) (le : String → String → Bool)
    (items : List PlantData) : plantsOf (groupItems gb le items) = [] := by
  rw [plantsOf, List.filterMap_eq_nil_iff]
  intro a ha
  rw [groupItems] at ha
  have ha' := (sortBy_perm _ _).mem_iff.mp ha
  obtain ⟨g, _, rfl⟩ := List.mem_map.mp ha'
  rfl

theorem insertGroup_flatten_perm (key : String) (p : PlantData)
    (gs : List (String × List PlantData)) :
    ((insertGroup key p gs).map Prod.snd).flatten.Perm
      ((gs.map Prod.snd).flatten ++ [p]) := by
  induction gs with
  | nil => simp [insertGroup]
  | cons g rest ih =>
    obtain ⟨k, ps⟩ := g
    simp only [insertGroup]
    split_ifs with hk
    · simp only [List.map_cons, List.flatten_cons]
      rw [List.append_assoc, List.append_assoc]
      exact List.Perm.append_left ps List.perm_append_comm
    · simp only [List.map_cons, List.flatten_cons]
      rw [List.append_assoc]
      exact List.Perm.append_left ps ih

theorem foldl_addToGroups_flatten_perm (gb : GroupBy) (hgb : gb ≠ GroupBy.none)
    (items : List PlantData) :
    ∀ gs, ((items.foldl (addToGroups gb) gs).map Prod.snd).flatten.Perm
      ((gs.map Prod.snd).flatten ++ items) := by
  induction items with
  | nil => intro gs; simp
  | cons p rest ih =>
    intro gs
    have hstep : addToGroups gb gs p = insertGroup (groupKey gb p) p gs := by
      cases gb with
      | none => exact absurd rfl hgb
      | type => rfl
      | health => rfl
      | folder => rfl
    simp only [List.foldl_cons, hstep]
    refine (ih _).trans ?_
    refine (List.Perm.append (insertGroup_flatten_perm _ _ _) (List.Perm.refl rest)).trans ?_
    rw [List.append_assoc]
    exact List.Perm.refl _

theorem buildGroups_flatten_perm (gb : GroupBy) (hgb : gb ≠ GroupBy.none)
    (items : List PlantData) :
    ((buildGroups gb items).map Prod.snd).flatten.Perm items := by
  have h := foldl_addToGroups_flatten_perm gb hgb items []
  simpa [buildGroups] using h

theorem flatten_children_mkGroup_perm (gb : GroupBy) (le : String → String → Bool)
    (gs : List (String × List PlantData)) :
    ((gs.map (mkGroupItem gb le)).map itemChildren).flatten.Perm
      ((gs.map Prod.snd).flatten) := by
  induction gs with
  | nil => exact List.Perm.refl _
  | cons g rest ih =>
    simp only [List.map_cons, List.flatten_cons, itemChildren_mkGroupItem]
    exact List.Perm.append (sortBy_perm _ _) ih

theorem groupItems_children_perm (gb : GroupBy) (le : String → String → Bool)
    (items : List PlantData) (hgb : gb ≠ GroupBy.none) :
    ((groupItems gb le items).map itemChildren).flatten.Perm items := by
  rw [groupItems]
  have h1 := ((sortBy_perm (fun a b => le (itemLabel a) (itemLabel b))
    ((buildGroups gb items).map (mkGroupItem gb le))).map itemChildren).flatten
  exact h1.trans ((flatten_children_mkGroup_perm gb le _).trans
    (buildGroups_flatten_perm gb hgb items))

/-- C7: for any input set and any grouping mode other than `none`, the
grouped view is a partition of the filtered input — the concatenation of
all group children is a permutation of the filtered file list, so every
filtered item lands in exactly one group, with no duplicates and no
omissions. -/
theorem grouping_partitions_filtered (files : List PlantData) (hf : HealthFilter)
    (gb : GroupBy) (le : String → String → Bool) (hgb : gb ≠ GroupBy.none) :
    ((getRootItems files hf gb le).map itemChildren).flatten.Perm
      (files.filter (fun p => passesFilter hf p.metrics.health)) := by
  simp only [getRootItems, if_neg hgb]
  exact groupItems_children_perm gb le _ hgb

/-- A host comparator instance for witnesses (the theorems hold for every
comparator). -/
def demoLe : String → String → Bool := fun _ _ => true

/-- Metrics of a healthy TypeScript file, for concrete witnesses. -/
def healthyMetrics : FileMetrics :=
  { lines := 1, size := 120, complexity := 1, lastModified := 0
  , type := "typescript", health := Health.healthy, issues := [] }

/-- Metrics of a warning-tier Python file, for concrete witnesses. -/
def warningPyMetrics : FileMetrics :=
  { lines := 300, size := 2048, complexity := 12, lastModified := 0
  , type := "python", health := Health.warning
  , issues := ["Moderate complexity (12)"] }

/-- A healthy demo file. -/
def demoHealthyFile : PlantData :=
  { fsPath := "src/app.ts", metrics := healthyMetrics }

/-- A warning-tier demo file. -/
def demoPyFile : PlantData :=
  { fsPath := "src/tool.py", metrics := warningPyMetrics }

/-- C7 witness: two files of different types grouped by type — the theorem
applied at this concrete input. -/
theorem grouping_partitions_filtered_witness :
    ((getRootItems [demoHealthyFile, demoPyFile] HealthFilter.all GroupBy.type demoLe).map
        itemChildren).flatten.Perm
      ([demoHealthyFile, demoPyFile].filter
        (fun p => passesFilter HealthFilter.all p.metrics.health)) :=
  grouping_partitions_filtered [demoHealthyFile, demoPyFile] HealthFilter.all
    GroupBy.type demoLe (by decide)

/-- C2 counterexample: with one healthy file enumerated, filtering by
`critical` (or grouping by type) changes the exported report — its totals
are not those of the full set, so the report is not independent of the
active filter and grouping. -/
theorem exportReport_independence_counterexample :
    ¬ (∀ (hf : HealthFilter) (gb : GroupBy),
        exportReportSummary [demoHealthyFile] hf gb demoLe =
          exportReportSummary [demoHealthyFile] HealthFilter.all GroupBy.none demoLe) := by
  intro h
  exact absurd (h HealthFilter.critical GroupBy.none) (by decide)

/-- C2 (amended): `exportReport` reports over `getRootItems()`, the
currently filtered and grouped view: its `PlantItem` list is the sorted
filtered file list when grouping is off, and is empty (every root item is a
`GroupItem`) when any grouping is active — so the totals count the filtered
set, not the full set. -/
theorem exportReport_reflects_filter_and_grouping (files : List PlantData)
    (hf : HealthFilter) (gb : GroupBy) (le : String → String → Bool) :
    plantsOf (getRootItems files hf gb le) =
      (if gb = GroupBy.none
       then sortBy (fun a b => le (plantLabel a) (plantLabel b))
              (files.filter (fun p => passesFilter hf p.metrics.health))
       else [])
    ∧ (exportReportSummary files hf gb le).total =
      (if gb = GroupBy.none
       then (files.filter (fun p => passesFilter hf p.metrics.health)).length
       else 0) := by
  constructor
  · simp only [getRootItems]
    split_ifs
    · exact plantsOf_map_plant _
    · exact plantsOf_groupItems _ _ _
  · simp only [exportReportSummary, reportSummary, getRootItems]
    split_ifs
    · rw [plantsOf_map_plant]
      exact (sortBy_perm _ _).length_eq
    · rw [plantsOf_groupItems]
      rfl

/-- `GardenProvider.debouncedRefresh` under the single-threaded timer
discipline: each change notification at time `t` cancels any pending timer
and schedules a refresh at `t + delay`; a pending timer fires exactly when
no further notification arrives strictly before its expiry.  Given the
notification times in delivery order, this returns the times at which
refreshes fire. -/
def debounceRun (delay : Nat) : List Nat → List Nat
  | [] => []
  | [t] => [t + delay]
  | t1 :: t2 :: rest =>
    if t2 < t1 + delay then debounceRun delay (t2 :: rest)
    else (t1 + delay) :: debounceRun delay (t2 :: rest)

/-- C9: a burst of N ≥ 1 change notifications, each arriving within the
quiet window of the previous one, produces exactly one downstream refresh,
and it fires one full quiet window after the last notification of the
burst — so the burst coalesces and is never dropped. -/
theorem debounce_coalesces_burst (delay : Nat) :
    ∀ (ts : List Nat) (hne : ts ≠ [])
      (hburst : List.Chain' (fun a b => b < a + delay) ts),
      debounceRun delay ts = [ts.getLast hne + delay]
  | [], hne, _ => absurd rfl hne
  | [_], _, _ => rfl
  | t1 :: t2 :: rest, _, hburst => by
    have h12 : t2 < t1 + delay := (List.chain'_cons.mp hburst).1
    have ih := debounce_coalesces_burst delay (t2 :: rest) (by simp)
      (List.chain'_cons.mp hburst).2
    simp only [debounceRun, if_pos h12, ih]
    rfl

/-- C9 witness: ten events 10 ms apart with a 300 ms window collapse to a
single refresh at 90 + 300. -/
theorem debounce_coalesces_burst_witness :
    debounceRun 300 [0, 10, 20, 30, 40, 50, 60, 70, 80, 90] =
      [[0, 10, 20, 30, 40, 50, 60, 70, 80, 90].getLast (by decide) + 300] :=
  debounce_coalesces_burst 300 [0, 10, 20, 30, 40, 50, 60, 70, 80, 90]
    (by decide) (by simp [List.chain'_cons])

end VerdantView
